import Mathlib

/-!
Verification of the rktl_autonomy environment-bridge specification.

The repository's visible source is the package manifest
`rktl_autonomy/__init__.py`; the bridge core (Observation Buffer, Episode
State Machine, Action Dispatcher, Synchronous Bridge) is described by the
specification but its implementation files are not present.  The manifest is
embedded verbatim; the bridge core is modelled from the specification, with
each modelled definition documented as such.
-/

/-- The ordered list of class names bound by the five import statements of
`rktl_autonomy/__init__.py`, one per import line, in source order. -/
def importedNames : List String :=
  ["ROSInterface", "CartpoleInterface", "CartpoleDirectInterface",
   "SnakeInterface", "RocketLeagueInterface"]

/-- The contents of the `__all__` list of `rktl_autonomy/__init__.py`,
verbatim and in source order.  These are the names made public when the
package is imported. -/
def allExports : List String :=
  ["ROSInterface", "CartpoleInterface", "CartpoleDirectInterface",
   "SnakeInterface", "RocketLeagueInterface"]

/-- The single base-interface name among the exports. -/
def baseInterfaceName : String := "ROSInterface"

/-- The four concrete environment-adapter names among the exports:
cartpole, the direct cartpole variant, the snake game, and the
rocket-league-style adapter. -/
def adapterNames : List String :=
  ["CartpoleInterface", "CartpoleDirectInterface",
   "SnakeInterface", "RocketLeagueInterface"]

/-- Modelled from the spec: an Observation is a typed snapshot of
environment state, a semantic vector plus a monotonic sequence number and
arrival timestamp.  The concrete observation type is missing from `src/`;
the float vector is modelled with integers since no claim depends on real
arithmetic. -/
structure Observation where
  payload : List Int
  seq : Nat
  stamp : Nat
deriving DecidableEq, Repr

/-- Modelled from the spec: a raw transport message, opaque to the core
beyond a domain-supplied decode.  `wellFormed` models whether decode
succeeds; `seq` and `stamp` model the sequence/timestamp extraction rule. -/
structure RawMsg where
  wellFormed : Bool
  payload : List Int
  seq : Nat
  stamp : Nat
deriving DecidableEq, Repr

/-- Modelled from the spec: the domain-supplied decode function
`raw → Observation`, fallible (returns `none` exactly on a malformed
message). -/
def decodeMsg (r : RawMsg) : Option Observation :=
  if r.wellFormed then some ⟨r.payload, r.seq, r.stamp⟩ else none

/-- Modelled from the spec: the Observation Buffer holds the most recent
validated state snapshot (`current`, latest-wins) and an internal sequence
counter that is intentionally monotonic and never reset. -/
structure ObservationBuffer where
  current : Option Observation
  seqCounter : Nat
deriving DecidableEq, Repr

/-- Modelled from the spec: `publish(raw_message)` decodes a transport
message into an Observation, stores it as current (total replacement,
latest-wins), and increments the internal sequence counter.  On decode
error the message is logged and dropped, no exception propagates, and the
buffer is unchanged.  Out-of-order messages (sequence number not strictly
greater than the current Observation's) are dropped so that `current`
never regresses. -/
def ObservationBuffer.publish (b : ObservationBuffer) (raw : RawMsg) :
    ObservationBuffer :=
  match decodeMsg raw with
  | none => b
  | some obs =>
    match b.current with
    | none => { current := some obs, seqCounter := b.seqCounter + 1 }
    | some cur =>
      if obs.seq ≤ cur.seq then b
      else { current := some obs, seqCounter := b.seqCounter + 1 }

/-- Modelled from the spec: the blocking wait of the bridge, resolved
against the buffer contents after the arrivals of the wait window have
been published: returns the current Observation when it is strictly newer
(by sequence number) than `lastSeq`, the last one returned to the caller,
and `none` (a timeout) otherwise. -/
def ObservationBuffer.freshFor (b : ObservationBuffer) (lastSeq : Nat) :
    Option Observation :=
  match b.current with
  | none => none
  | some obs => if lastSeq < obs.seq then some obs else none

/-- Modelled from the spec: the Episode State Machine's states —
`idle` (initial, before first reset), `running`, `terminal`. -/
inductive EpisodeState
  | idle
  | running
  | terminal
deriving DecidableEq, Repr

/-- Modelled from the spec: the error taxonomy surfaced to the bridge
caller.  `invalidAction` models a bounds-validation failure before
dispatch. -/
inductive BridgeError
  | invalidState
  | invalidAction
  | stepTimeout
  | resetTimeout
deriving DecidableEq, Repr

/-- Modelled from the spec: the diagnostic `info` mapping, reduced to the
one key the specification names — the environment-fault flag recorded when
a step timeout forces the episode to `terminal`. -/
structure StepInfo where
  fault : Bool
deriving DecidableEq, Repr

/-- Modelled from the spec: an Action is a caller-supplied typed value
(vector of floats or discrete index, modelled with integers) with
domain-specific bounds. -/
abbrev RLAction := List Int

/-- Modelled from the spec: the construction-time collaborators the caller
supplies — a reward function, a done predicate and an action validator
over (previous observation, action, new observation). -/
structure DomainHooks where
  reward : Observation → RLAction → Observation → Int
  isDone : Observation → RLAction → Observation → Bool
  validate : RLAction → Bool

/-- Modelled from the spec: the bridge-owned episode and buffer state — the
state-machine state, step counter, monotonically increasing episode id,
accumulated reward, the Observation Buffer, the sequence number of the last
Observation returned to the caller, the previous observation handed to the
domain hooks, and the optional step budget. -/
structure Bridge where
  esm : EpisodeState
  stepCount : Nat
  episodeId : Nat
  accReward : Int
  buffer : ObservationBuffer
  lastSeq : Nat
  prevObs : Option Observation
  maxEpisodeSteps : Option Nat
deriving DecidableEq, Repr

/-- Modelled from the spec: the outcome of a `step` call — either the
`(observation, reward, done, info)` tuple, or an error together with the
diagnostic info recorded for it. -/
inductive StepOutcome
  | ok (obs : Observation) (reward : Int) (don : Bool) (info : StepInfo)
  | err (e : BridgeError) (info : StepInfo)
deriving DecidableEq, Repr

/-- Modelled from the spec: the outcome of a `reset` call. -/
inductive ResetOutcome
  | ok (obs : Observation)
  | err (e : BridgeError)
deriving DecidableEq, Repr

/-- Modelled from the spec: `step(action)` requires state `running` (else
`invalidState`, no side effect); validates and dispatches the action;
blocks on the Observation Buffer for the next fresh Observation — the
messages arriving within the step-timeout window are `arrivals`, published
in order; on expiry fails with `stepTimeout`, forcing the Episode State
Machine to `terminal` with a fault flag in info; otherwise computes reward
and done via the domain hooks, advances the step counter, applies the
optional step budget, updates the state machine and returns the tuple. -/
def Bridge.step (dom : DomainHooks) (br : Bridge) (a : RLAction)
    (arrivals : List RawMsg) : Bridge × StepOutcome :=
  if br.esm ≠ EpisodeState.running then
    (br, .err .invalidState ⟨false⟩)
  else if dom.validate a then
    let b := arrivals.foldl ObservationBuffer.publish br.buffer
    match b.freshFor br.lastSeq with
    | none =>
      ({ br with buffer := b, esm := .terminal }, .err .stepTimeout ⟨true⟩)
    | some obs =>
      let prev := br.prevObs.getD obs
      let r := dom.reward prev a obs
      let newCount := br.stepCount + 1
      let budgetHit :=
        match br.maxEpisodeSteps with
        | some cap => decide (cap ≤ newCount)
        | none => false
      let d := dom.isDone prev a obs || budgetHit
      ({ br with
          buffer := b
          esm := if d then .terminal else .running
          stepCount := newCount
          accReward := br.accReward + r
          lastSeq := obs.seq
          prevObs := some obs },
       .ok obs r d ⟨false⟩)
  else
    (br, .err .invalidAction ⟨false⟩)

/-- Modelled from the spec: `reset()` transitions the Episode State
Machine to `running`, starts a new episode id, zeroes the step counter and
accumulated reward, then blocks on the Observation Buffer until a
post-reset observation (sequence number strictly newer than any pre-reset
one) arrives — the messages arriving within the reset-timeout window are
`arrivals` — or fails with `resetTimeout`. -/
def Bridge.reset (br : Bridge) (arrivals : List RawMsg) :
    Bridge × ResetOutcome :=
  let b := arrivals.foldl ObservationBuffer.publish br.buffer
  let base : Bridge :=
    { br with
        esm := EpisodeState.running
        stepCount := 0
        episodeId := br.episodeId + 1
        accReward := 0
        buffer := b }
  match b.freshFor br.lastSeq with
  | none => (base, .err .resetTimeout)
  | some obs =>
    ({ base with lastSeq := obs.seq, prevObs := some obs }, .ok obs)

/-- Modelled from the spec: the operations touching the bridge state — the
foreground `reset` and `step` calls and a background transport delivery
(`arrival`) handled by the Observation Buffer's publish callback. -/
inductive BridgeCall
  | reset (arrivals : List RawMsg)
  | step (a : RLAction) (arrivals : List RawMsg)
  | arrival (raw : RawMsg)

/-- Modelled from the spec: the state reached after one operation,
discarding the outcome. -/
def applyCall (dom : DomainHooks) (br : Bridge) : BridgeCall → Bridge
  | .reset arr => (br.reset arr).1
  | .step a arr => (Bridge.step dom br a arr).1
  | .arrival raw => { br with buffer := br.buffer.publish raw }

/-- Modelled from the spec: per-dimension action bounds supplied by the
domain. -/
structure ActionBounds where
  lo : List Int
  hi : List Int
deriving DecidableEq, Repr

/-- Modelled from the spec: the domain-supplied action validator — the
action has the configured dimension and every component lies within its
bounds. -/
def validateAction (bd : ActionBounds) (a : RLAction) : Bool :=
  a.length = bd.lo.length && a.length = bd.hi.length &&
    (List.range a.length).all fun i =>
      bd.lo.getD i 0 ≤ a.getD i 0 && a.getD i 0 ≤ bd.hi.getD i 0

/-- Modelled from the spec: the domain-supplied encode function
`Action → raw`, serialising the action vector behind a length header. -/
def encodeAction (a : RLAction) : List Int :=
  (a.length : Int) :: a

/-- Modelled from the spec: the decoder for outgoing action messages,
recovering the semantic action value checked by the validator. -/
def decodeAction (m : List Int) : Option RLAction :=
  match m with
  | [] => none
  | n :: rest => if (rest.length : Int) = n then some rest else none

/-! ## Helper lemmas (shared) -/

/-- A fresh wait that returns an observation returns one strictly newer
than the caller's last sequence number, taken from the current slot. -/
theorem freshFor_some_lt (b : ObservationBuffer) (n : Nat) (obs : Observation)
    (h : b.freshFor n = some obs) : n < obs.seq ∧ b.current = some obs := by
  unfold ObservationBuffer.freshFor at h
  split at h
  · cases h
  · rename_i obs2 hcur
    split at h
    · rename_i hlt
      injection h with e
      subst e
      exact ⟨hlt, hcur⟩
    · cases h

/-- A single publish never decreases the internal sequence counter. -/
theorem publish_seqCounter_mono (b : ObservationBuffer) (raw : RawMsg) :
    b.seqCounter ≤ (b.publish raw).seqCounter := by
  unfold ObservationBuffer.publish
  split
  · exact le_refl _
  · split
    · exact Nat.le_succ _
    · split
      · exact le_refl _
      · exact Nat.le_succ _

/-- Publishing any list of messages never decreases the internal sequence
counter. -/
theorem foldl_publish_seqCounter_mono (msgs : List RawMsg)
    (b : ObservationBuffer) :
    b.seqCounter ≤ (msgs.foldl ObservationBuffer.publish b).seqCounter := by
  induction msgs generalizing b with
  | nil => exact le_refl _
  | cons m ms ih => exact le_trans (publish_seqCounter_mono b m) (ih _)

/-- Publish either leaves the current slot unchanged or replaces it by an
observation strictly newer than whatever was current. -/
theorem publish_current_cases (b : ObservationBuffer) (raw : RawMsg) :
    (b.publish raw).current = b.current ∨
    ∃ obs, (b.publish raw).current = some obs ∧
      ∀ cur, b.current = some cur → cur.seq < obs.seq := by
  unfold ObservationBuffer.publish
  split
  · exact Or.inl rfl
  · rename_i obs hdec
    split
    · rename_i hcur
      refine Or.inr ⟨obs, rfl, ?_⟩
      intro cur hcur2
      rw [hcur] at hcur2
      cases hcur2
    · rename_i cur hcur
      split
      · exact Or.inl rfl
      · rename_i hle
        refine Or.inr ⟨obs, rfl, ?_⟩
        intro cur2 hcur2
        rw [hcur] at hcur2
        injection hcur2 with e
        subst e
        omega

/-- A step attempted in any state other than `running` fails with
`invalidState` and leaves the bridge untouched. -/
theorem step_not_running (dom : DomainHooks) (br : Bridge) (a : RLAction)
    (arrivals : List RawMsg) (h : br.esm ≠ EpisodeState.running) :
    Bridge.step dom br a arrivals =
      (br, StepOutcome.err BridgeError.invalidState ⟨false⟩) := by
  unfold Bridge.step
  simp [h]

/-! ## Claim theorems -/

/-- Claim C1: the package manifest re-exports exactly five classes — the
base interface `ROSInterface` and the four concrete environment adapters
(cartpole, direct cartpole, snake, rocket-league) — and these five names
are exactly what the package makes public. -/
theorem c1_manifest_reexports_five :
    allExports.length = 5 ∧
    allExports = baseInterfaceName :: adapterNames :=
  ⟨rfl, rfl⟩

/-- Claim C10: the `__all__` list and the import statements of the package
manifest agree exactly — same names, no duplicates, and the listing order
matches the import order. -/
theorem c10_all_matches_imports :
    allExports = importedNames ∧ allExports.Nodup ∧
    importedNames =
      ["ROSInterface", "CartpoleInterface", "CartpoleDirectInterface",
       "SnakeInterface", "RocketLeagueInterface"] :=
  ⟨rfl, by decide, rfl⟩

/-- A sample set of domain hooks used by concrete witnesses: reward is the
head of the new observation's payload, the episode never self-terminates,
and actions are one-dimensional within [-10, 10]. -/
def sampleDom : DomainHooks where
  reward := fun _ _ o => o.payload.headD 0
  isDone := fun _ _ _ => false
  validate := validateAction ⟨[-10], [10]⟩

/-- A sample bridge state whose episode has already terminated. -/
def terminalBridge : Bridge where
  esm := .terminal
  stepCount := 3
  episodeId := 2
  accReward := 5
  buffer := ⟨some ⟨[1], 4, 7⟩, 4⟩
  lastSeq := 4
  prevObs := some ⟨[1], 4, 7⟩
  maxEpisodeSteps := none

/-- Claim C2: every `step` call made while the Episode State Machine is in
the `terminal` state fails with `invalidState`, and the episode state
(state-machine state, step counter, episode id, accumulated reward — the
whole bridge state) is unchanged by the call. -/
theorem c2_step_in_terminal_invalid_state (dom : DomainHooks) (br : Bridge)
    (a : RLAction) (arrivals : List RawMsg)
    (h : br.esm = EpisodeState.terminal) :
    Bridge.step dom br a arrivals =
      (br, StepOutcome.err BridgeError.invalidState ⟨false⟩) :=
  step_not_running dom br a arrivals (by rw [h]; intro hc; cases hc)

/-- Concrete instance of C2: a step on a terminated bridge fails with
`invalidState` and changes nothing. -/
theorem c2_witness :
    Bridge.step sampleDom terminalBridge [0] [] =
      (terminalBridge, StepOutcome.err BridgeError.invalidState ⟨false⟩) :=
  c2_step_in_terminal_invalid_state sampleDom terminalBridge [0] [] rfl

/-- Claim C6: publishing a raw message whose decode fails never raises —
`publish` is a total function — and leaves the buffer (current Observation
and sequence counter alike) unchanged: the message is dropped. -/
theorem c6_decode_failure_silent (b : ObservationBuffer) (raw : RawMsg)
    (h : decodeMsg raw = none) :
    b.publish raw = b := by
  unfold ObservationBuffer.publish
  rw [h]

/-- Concrete instance of C6: a malformed message is dropped and the buffer
is untouched. -/
theorem c6_witness :
    ObservationBuffer.publish ⟨some ⟨[1], 2, 3⟩, 2⟩ ⟨false, [7], 9, 9⟩ =
      ⟨some ⟨[1], 2, 3⟩, 2⟩ :=
  c6_decode_failure_silent ⟨some ⟨[1], 2, 3⟩, 2⟩ ⟨false, [7], 9, 9⟩ rfl

/-- Claim C8: a decodable message whose sequence number is not strictly
greater than the current Observation's is dropped (buffer unchanged), and
under any publish whatsoever the current slot never regresses to an older
observation. -/
theorem c8_publish_never_regresses (b : ObservationBuffer) (raw : RawMsg) :
    (∀ obs cur, decodeMsg raw = some obs → b.current = some cur →
        obs.seq ≤ cur.seq → b.publish raw = b) ∧
    (∀ cur cur', b.current = some cur → (b.publish raw).current = some cur' →
        cur.seq ≤ cur'.seq) := by
  constructor
  · intro obs cur hdec hcur hle
    unfold ObservationBuffer.publish
    rw [hdec, hcur]
    simp [hle]
  · intro cur cur' hcur hcur'
    rcases publish_current_cases b raw with h | ⟨obs, hobs, hlt⟩
    · rw [h, hcur] at hcur'
      injection hcur' with e
      exact le_of_eq (congrArg Observation.seq e)
    · rw [hobs] at hcur'
      injection hcur' with e
      subst e
      exact le_of_lt (hlt cur hcur)

/-- Concrete instance of C8: a stale message (sequence 2 against a current
observation at sequence 2) is dropped, and the surviving current
observation is at least as new as before. -/
theorem c8_witness :
    ObservationBuffer.publish ⟨some ⟨[1], 2, 3⟩, 5⟩ ⟨true, [9], 2, 9⟩ =
        ⟨some ⟨[1], 2, 3⟩, 5⟩ ∧
      (2 : Nat) ≤ 2 :=
  ⟨(c8_publish_never_regresses ⟨some ⟨[1], 2, 3⟩, 5⟩ ⟨true, [9], 2, 9⟩).1
      ⟨[9], 2, 9⟩ ⟨[1], 2, 3⟩ rfl rfl (le_refl 2),
    (c8_publish_never_regresses ⟨some ⟨[1], 2, 3⟩, 5⟩ ⟨true, [9], 2, 9⟩).2
      ⟨[1], 2, 3⟩ ⟨[1], 2, 3⟩ rfl rfl⟩

/-- Claim C9: for every action that passes bounds validation, encoding it
to a transport message and decoding that message back yields exactly the
semantic value the validator checked. -/
theorem c9_action_roundtrip (bd : ActionBounds) (a : RLAction)
    (h : validateAction bd a = true) :
    decodeAction (encodeAction a) = some a := by
  unfold encodeAction decodeAction
  simp

/-- Concrete instance of C9: the action [0, 1] within bounds [-1, 1]²
validates and round-trips through encode/decode. -/
theorem c9_witness :
    validateAction ⟨[-1, -1], [1, 1]⟩ [0, 1] = true ∧
      decodeAction (encodeAction [0, 1]) = some [0, 1] :=
  ⟨by decide, c9_action_roundtrip ⟨[-1, -1], [1, 1]⟩ [0, 1] (by decide)⟩

/-- A step never decreases the buffer's internal sequence counter. -/
theorem step_seqCounter_mono (dom : DomainHooks) (br : Bridge) (a : RLAction)
    (arr : List RawMsg) :
    br.buffer.seqCounter ≤ (Bridge.step dom br a arr).1.buffer.seqCounter := by
  unfold Bridge.step
  split
  · exact le_refl _
  · split
    · dsimp only
      split
      · exact foldl_publish_seqCounter_mono arr br.buffer
      · exact foldl_publish_seqCounter_mono arr br.buffer
    · exact le_refl _

/-- A reset never decreases the buffer's internal sequence counter. -/
theorem reset_seqCounter_mono (br : Bridge) (arr : List RawMsg) :
    br.buffer.seqCounter ≤ (br.reset arr).1.buffer.seqCounter := by
  unfold Bridge.reset
  dsimp only
  split
  · exact foldl_publish_seqCounter_mono arr br.buffer
  · exact foldl_publish_seqCounter_mono arr br.buffer

/-- Claim C7: the Observation Buffer's internal sequence counter is
monotonically non-decreasing across every operation — reset, step and
background publish alike: no operation ever resets or decreases it, so it
persists across episode boundaries. -/
theorem c7_seq_counter_monotone (dom : DomainHooks) (br : Bridge)
    (c : BridgeCall) :
    br.buffer.seqCounter ≤ (applyCall dom br c).buffer.seqCounter := by
  cases c with
  | reset arr => exact reset_seqCounter_mono br arr
  | step a arr => exact step_seqCounter_mono dom br a arr
  | arrival raw => exact publish_seqCounter_mono br.buffer raw

/-- Claim C3: the step counter is zero immediately after every reset call;
each successful step increases it by exactly one (hence strictly); a
failed step leaves it unchanged, so it never decreases except at a reset,
where it is zeroed exactly once. -/
theorem c3_step_counter_discipline (dom : DomainHooks) (br : Bridge)
    (a : RLAction) (arrivals : List RawMsg) :
    ((br.reset arrivals).1.stepCount = 0) ∧
    ((Bridge.step dom br a arrivals).1.stepCount =
      match (Bridge.step dom br a arrivals).2 with
      | .ok _ _ _ _ => br.stepCount + 1
      | .err _ _ => br.stepCount) := by
  constructor
  · unfold Bridge.reset
    dsimp only
    split
    · rfl
    · rfl
  · unfold Bridge.step
    split
    · rfl
    · split
      · dsimp only
        split
        · rfl
        · rfl
      · rfl

/-- A successful step returns an observation strictly newer than the last
sequence number handed to the caller, and records that observation's
sequence number as the new last one. -/
theorem step_ok_seq (dom : DomainHooks) (br br' : Bridge) (a : RLAction)
    (arr : List RawMsg) (obs : Observation) (r : Int) (d : Bool)
    (i : StepInfo)
    (h : Bridge.step dom br a arr = (br', StepOutcome.ok obs r d i)) :
    br.lastSeq < obs.seq ∧ br'.lastSeq = obs.seq := by
  unfold Bridge.step at h
  split at h
  · simp at h
  · split at h
    · dsimp only at h
      split at h
      · simp at h
      · rename_i obs2 hfresh
        have hlt := (freshFor_some_lt _ _ _ hfresh).1
        simp only [Prod.mk.injEq, StepOutcome.ok.injEq] at h
        obtain ⟨hbr, hobs, -, -, -⟩ := h
        subst hobs
        exact ⟨hlt, by rw [← hbr]⟩
    · simp at h

/-- A successful reset returns an observation strictly newer than any
pre-reset one and records its sequence number as the new last one. -/
theorem reset_ok_seq (br br' : Bridge) (arr : List RawMsg)
    (obs : Observation)
    (h : br.reset arr = (br', ResetOutcome.ok obs)) :
    br.lastSeq < obs.seq ∧ br'.lastSeq = obs.seq := by
  unfold Bridge.reset at h
  dsimp only at h
  split at h
  · simp at h
  · rename_i obs2 hfresh
    have hlt := (freshFor_some_lt _ _ _ hfresh).1
    simp only [Prod.mk.injEq, ResetOutcome.ok.injEq] at h
    obtain ⟨hbr, hobs⟩ := h
    subst hobs
    exact ⟨hlt, by rw [← hbr]⟩

/-- Claim C4: across two consecutive successful step calls, and across a
successful reset followed by a successful step, the observation returned
by the later call carries a strictly greater sequence number than the one
returned by the earlier call — never equal and never smaller. -/
theorem c4_monotone_observation_seq (dom : DomainHooks)
    (br br₁ br₂ : Bridge) (a₁ a₂ : RLAction) (arr₁ arr₂ : List RawMsg)
    (obs₁ obs₂ : Observation) (r₁ r₂ : Int) (d₁ d₂ : Bool)
    (i₁ i₂ : StepInfo) :
    (Bridge.step dom br a₁ arr₁ = (br₁, StepOutcome.ok obs₁ r₁ d₁ i₁) →
      Bridge.step dom br₁ a₂ arr₂ = (br₂, StepOutcome.ok obs₂ r₂ d₂ i₂) →
      obs₁.seq < obs₂.seq) ∧
    (br.reset arr₁ = (br₁, ResetOutcome.ok obs₁) →
      Bridge.step dom br₁ a₂ arr₂ = (br₂, StepOutcome.ok obs₂ r₂ d₂ i₂) →
      obs₁.seq < obs₂.seq) := by
  constructor
  · intro h₁ h₂
    have e₁ := (step_ok_seq dom br br₁ a₁ arr₁ obs₁ r₁ d₁ i₁ h₁).2
    have e₂ := (step_ok_seq dom br₁ br₂ a₂ arr₂ obs₂ r₂ d₂ i₂ h₂).1
    rw [e₁] at e₂
    exact e₂
  · intro h₁ h₂
    have e₁ := (reset_ok_seq br br₁ arr₁ obs₁ h₁).2
    have e₂ := (step_ok_seq dom br₁ br₂ a₂ arr₂ obs₂ r₂ d₂ i₂ h₂).1
    rw [e₁] at e₂
    exact e₂

/-- A fresh bridge about to run its first episode, used by witnesses. -/
def startBridge : Bridge where
  esm := .running
  stepCount := 0
  episodeId := 1
  accReward := 0
  buffer := ⟨none, 0⟩
  lastSeq := 0
  prevObs := none
  maxEpisodeSteps := none

/-- The bridge state after one successful witness step. -/
def bridgeStep1 : Bridge :=
  (Bridge.step sampleDom startBridge [0] [⟨true, [1], 1, 1⟩]).1

/-- The bridge state after two successful witness steps. -/
def bridgeStep2 : Bridge :=
  (Bridge.step sampleDom bridgeStep1 [0] [⟨true, [2], 2, 2⟩]).1

/-- Concrete instance of C4: two consecutive successful steps return
observations with sequence numbers 1 and then 2. -/
theorem c4_witness :
    (Observation.mk [1] 1 1).seq < (Observation.mk [2] 2 2).seq :=
  (c4_monotone_observation_seq sampleDom startBridge bridgeStep1 bridgeStep2
      [0] [0] [⟨true, [1], 1, 1⟩] [⟨true, [2], 2, 2⟩]
      ⟨[1], 1, 1⟩ ⟨[2], 2, 2⟩ 1 2 false false ⟨false⟩ ⟨false⟩).1
    (by decide) (by decide)

/-- Claim C5: a step in state `running` whose wait window delivers no
observation fresher than the last one returned fails with `stepTimeout`,
records the fault flag in its info, and forces the Episode State Machine
to `terminal`, so any following step without an intervening reset fails
with `invalidState`. -/
theorem c5_step_timeout_forces_terminal (dom : DomainHooks) (br : Bridge)
    (a : RLAction) (arrivals : List RawMsg)
    (hrun : br.esm = EpisodeState.running)
    (hval : dom.validate a = true)
    (hto : (arrivals.foldl ObservationBuffer.publish br.buffer).freshFor
        br.lastSeq = none) :
    Bridge.step dom br a arrivals =
      ({ br with
          buffer := arrivals.foldl ObservationBuffer.publish br.buffer,
          esm := EpisodeState.terminal },
        StepOutcome.err BridgeError.stepTimeout ⟨true⟩) ∧
    ∀ a₂ arr₂,
      (Bridge.step dom (Bridge.step dom br a arrivals).1 a₂ arr₂).2 =
        StepOutcome.err BridgeError.invalidState ⟨false⟩ := by
  have h1 : Bridge.step dom br a arrivals =
      ({ br with
          buffer := arrivals.foldl ObservationBuffer.publish br.buffer,
          esm := EpisodeState.terminal },
        StepOutcome.err BridgeError.stepTimeout ⟨true⟩) := by
    unfold Bridge.step
    rw [hrun]
    simp [hval, hto]
  refine ⟨h1, ?_⟩
  intro a₂ arr₂
  rw [h1]
  rw [step_not_running dom _ a₂ arr₂ (fun hc => by simp at hc)]

/-- A running bridge whose buffer holds nothing newer than what the caller
has already seen, used by the C5 witness. -/
def staleBridge : Bridge where
  esm := .running
  stepCount := 1
  episodeId := 1
  accReward := 1
  buffer := ⟨some ⟨[1], 1, 1⟩, 1⟩
  lastSeq := 1
  prevObs := some ⟨[1], 1, 1⟩
  maxEpisodeSteps := none

/-- Concrete instance of C5: with no arrivals in the wait window, the step
times out, the bridge lands in `terminal`, and the next step is rejected
with `invalidState`. -/
theorem c5_witness :
    Bridge.step sampleDom staleBridge [0] [] =
      ({ staleBridge with
          buffer := List.foldl ObservationBuffer.publish staleBridge.buffer [],
          esm := EpisodeState.terminal },
        StepOutcome.err BridgeError.stepTimeout ⟨true⟩) ∧
      (Bridge.step sampleDom (Bridge.step sampleDom staleBridge [0] []).1
          [0] []).2 = StepOutcome.err BridgeError.invalidState ⟨false⟩ :=
  ⟨(c5_step_timeout_forces_terminal sampleDom staleBridge [0] [] rfl
      (by decide) rfl).1,
    (c5_step_timeout_forces_terminal sampleDom staleBridge [0] [] rfl
      (by decide) rfl).2 [0] []⟩
